import Mathlib

/-!
Verification of the game-state simulation core of "Juice WRLD: Life's Journey"
(src/main.py). The simulation state of the `Game` class is embedded as a Lean
structure over `ℚ` (the Python code manipulates floats only through exact
decimal literals and arithmetic; the claims under scrutiny concern the
structure of the formulas, so rationals are used as the idealised field).

External effects are abstracted into an `Env` oracle:
  * `Env.sin` stands for `math.sin` (an arbitrary function; theorems that
    need nothing about it quantify over it, concrete witnesses pick one);
  * `Env.now` stands for `time.time()` at the start of the tick;
  * `Env.uniform k a b` stands for the `k`-th call to `random.uniform(a, b)`
    inside one tick (call sites are numbered statically);
  * `Env.choiceNat k` drives the `k`-th `random.choice` (taken modulo the
    length of the choice list, so the result is always an element of it);
  * `Env.rand01` stands for the single `random.random()` call of a tick;
  * `Env.shuffled` stands for the result of `random.shuffle` on the
    `['ground', 'mid_air', 'high_air']` list in the `triple` pattern.

Rendering, audio and the ground-tile scrolling (purely visual state) are out
of scope and omitted, exactly as the specification's scope section demands.
-/

namespace JuiceWRLD

/-- An obstacle record (`create_pill_obstacle`, src/main.py:254-259). -/
structure Obstacle where
  x : ℚ
  y : ℚ
  width : ℚ
  height : ℚ
deriving DecidableEq, Repr

/-- The parallel animation record of an obstacle (src/main.py:265-269). -/
structure ObsData where
  base_y : ℚ
  animation_offset : ℚ
  animation_speed : ℚ
deriving DecidableEq, Repr

/-- A lifeline record (`create_lifeline`, src/main.py:359-364). -/
structure Lifeline where
  x : ℚ
  y : ℚ
  width : ℚ
  height : ℚ
deriving DecidableEq, Repr

/-- The parallel animation record of a lifeline (src/main.py:366-371). -/
structure LifeData where
  base_y : ℚ
  animation_offset : ℚ
  animation_speed : ℚ
  pulse_offset : ℚ
deriving DecidableEq, Repr

/-- The mutable simulation state of the `Game` object
(`reset_game_state`, src/main.py:139-177, plus the two spawn clocks set in
`__init__`/`restart_game`). -/
structure GameState where
  player_x : ℚ
  player_y : ℚ
  velocity : ℚ
  is_jumping : Bool
  player_rotation : ℚ
  obstacles : List Obstacle
  obstacle_data : List ObsData
  lifelines : List Lifeline
  lifeline_data : List LifeData
  score : ℕ
  lives : ℤ
  difficulty_level : ℕ
  game_running : Bool
  game_over_screen : Bool
  game_paused : Bool
  invulnerable : Bool
  invulnerable_timer : ℚ
  show_999_forever : Bool
  speed : ℚ
  last_spawn_time : ℚ
  last_lifeline_spawn_time : ℚ
deriving DecidableEq, Repr

/-- The symbolic height classes accepted by `create_pill_obstacle`
(src/main.py:239-252): a named altitude or a raw numeric one (the Python
function receives either a string or a float). -/
inductive HeightSpec
  | ground
  | low_air
  | mid_air
  | high_air
  | sky
  | custom (y : ℚ)
deriving DecidableEq, Repr

/-- Oracle for the external world: `math.sin`, `time.time()` and the
pseudo-random source consumed during one `update` tick. -/
structure Env where
  sin : ℚ → ℚ
  now : ℚ
  uniform : ℕ → ℚ → ℚ → ℚ
  choiceNat : ℕ → ℕ
  rand01 : ℚ
  shuffled : List HeightSpec

/- Physics and difficulty constants (src/main.py:163-177). -/

def gravity : ℚ := (15/1000)
def jump_force : ℚ := (45/100)
def max_jump_height : ℚ := (2/10)
def air_control : ℚ := (9/10)
def invulnerable_duration : ℚ := (15/10)
def base_speed : ℚ := (12/100)
def base_spawn_min : ℚ := 1
def base_spawn_max : ℚ := 2
def base_lifeline_spawn_min : ℚ := 6
def base_lifeline_spawn_max : ℚ := 10
def max_difficulty_level : ℕ := 15

/-- `get_difficulty_multiplier` (src/main.py:193-195):
`min(self.difficulty_level / self.max_difficulty_level, 1.0)`. -/
def get_difficulty_multiplier (s : GameState) : ℚ :=
  min ((s.difficulty_level : ℚ) / (max_difficulty_level : ℚ)) 1

/-- `get_current_speed` (src/main.py:197-201):
`self.base_speed * (1 + multiplier * 4)`. -/
def get_current_speed (s : GameState) : ℚ :=
  base_speed * (1 + get_difficulty_multiplier s * 4)

/-- `get_spawn_timing` (src/main.py:203-209). -/
def get_spawn_timing (s : GameState) : ℚ × ℚ :=
  let multiplier := get_difficulty_multiplier s
  let min_time := base_spawn_min * (1 - multiplier * (7/10))
  let max_time := base_spawn_max * (1 - multiplier * (7/10))
  (max (4/10) min_time, max (8/10) max_time)

/-- `get_lifeline_spawn_timing` (src/main.py:211-216). -/
def get_lifeline_spawn_timing (s : GameState) : ℚ × ℚ :=
  let multiplier := get_difficulty_multiplier s
  let min_time := base_lifeline_spawn_min * (1 - multiplier * (3/10))
  let max_time := base_lifeline_spawn_max * (1 - multiplier * (3/10))
  (max 5 min_time, max 8 max_time)

/-- The level derived from a score: `min(self.max_difficulty_level,
(self.score // 10) + 1)` (src/main.py:234). -/
def levelOf (score : ℕ) : ℕ :=
  min max_difficulty_level (score / 10 + 1)

/-- `update_difficulty` (src/main.py:231-237). -/
def update_difficulty (s : GameState) : GameState :=
  if levelOf s.score ≠ s.difficulty_level then
    let s' := { s with difficulty_level := levelOf s.score }
    { s' with speed := get_current_speed s' }
  else s

/-- The six obstacle pattern names of `get_obstacle_pattern`
(src/main.py:218-229). -/
inductive Pattern
  | singleGround
  | singleAir
  | doubleStack
  | gapVertical
  | gapHorizontal
  | triple
deriving DecidableEq, Repr

/-- The list `get_obstacle_pattern` draws from at the current difficulty
level (the five `random.choice` argument lists of src/main.py:218-229). -/
def patternChoices (s : GameState) : List Pattern :=
  if s.difficulty_level ≥ 9 then
    [.singleGround, .singleAir, .gapVertical, .gapHorizontal, .triple]
  else if s.difficulty_level ≥ 7 then
    [.singleGround, .singleAir, .gapVertical, .doubleStack, .triple]
  else if s.difficulty_level ≥ 5 then
    [.singleGround, .singleAir, .gapVertical, .doubleStack]
  else if s.difficulty_level ≥ 3 then
    [.singleGround, .singleAir, .doubleStack]
  else
    [.singleGround, .singleAir]

/-- `get_obstacle_pattern` (src/main.py:218-229); `random.choice` always
returns an element of its argument, modelled by indexing modulo length. -/
def get_obstacle_pattern (env : Env) (s : GameState) : Pattern :=
  let l := patternChoices s
  l.getD (env.choiceNat 0 % l.length) .singleGround

/-- The level gate of each pattern, as the specification's table states it
(spec section 4.3). This is spec-side vocabulary used to compare the table
against `patternChoices`. -/
def patternThreshold : Pattern → ℕ
  | .singleGround => 1
  | .singleAir => 1
  | .doubleStack => 3
  | .gapVertical => 5
  | .triple => 7
  | .gapHorizontal => 9

/-- The base altitude of each height class (src/main.py:241-252). -/
def pill_base_y : HeightSpec → ℚ
  | .ground => -(55/10)
  | .low_air => -(45/10)
  | .mid_air => -(35/10)
  | .high_air => -(25/10)
  | .sky => -(15/10)
  | .custom y => y

/-- `create_pill_obstacle` (src/main.py:239-271). `k` numbers the pill
inside the current pattern so that each pill consumes its own random draws. -/
def create_pill_obstacle (env : Env) (k : ℕ) (s : GameState) (h : HeightSpec) :
    Obstacle × ObsData :=
  let base_y := pill_base_y h
  let obstacle : Obstacle := { x := 25, y := base_y, width := (15/10), height := (15/10) }
  let multiplier := get_difficulty_multiplier s
  let animation_speed := env.uniform (10 + 2 * k) (15/10) (25/10) * (1 + multiplier * (5/10))
  (obstacle,
   { base_y := base_y
     animation_offset := env.uniform (11 + 2 * k) 0 (628/100)
     animation_speed := animation_speed })

/-- `create_obstacle_pattern` (src/main.py:273-332). -/
def create_obstacle_pattern (env : Env) (s : GameState) :
    Pattern → List Obstacle × List ObsData
  | .singleGround =>
      let (o, d) := create_pill_obstacle env 0 s .ground
      ([o], [d])
  | .singleAir =>
      let hs := [HeightSpec.low_air, .mid_air, .high_air]
      let h := hs.getD (env.choiceNat 1 % hs.length) .low_air
      let (o, d) := create_pill_obstacle env 0 s h
      ([o], [d])
  | .doubleStack =>
      let h1 := env.uniform 20 (-(55/10)) (-(45/10))
      let h2 := env.uniform 21 (-(35/10)) (-(25/10))
      let (o1, d1) := create_pill_obstacle env 0 s (.custom h1)
      let (o2, d2) := create_pill_obstacle env 1 s (.custom h2)
      ([o1, o2], [d1, d2])
  | .gapVertical =>
      let gap_size := env.uniform 22 (25/10) (32/10)
      let gap_center := env.uniform 23 (-4) (-(25/10))
      let bottom_height := gap_center - gap_size / 2
      let acc : List Obstacle × List ObsData :=
        if bottom_height > -(65/10) then
          let (o, d) := create_pill_obstacle env 0 s (.custom bottom_height)
          ([o], [d])
        else ([], [])
      let top_height := gap_center + gap_size / 2
      if top_height < -(5/10) then
        let (o, d) := create_pill_obstacle env 1 s (.custom top_height)
        (acc.1 ++ [o], acc.2 ++ [d])
      else acc
  | .gapHorizontal =>
      let hs1 := [HeightSpec.ground, .low_air, .mid_air]
      let h1 := hs1.getD (env.choiceNat 2 % hs1.length) .ground
      let (o1, d1) := create_pill_obstacle env 0 s h1
      let hs2 := [HeightSpec.low_air, .mid_air, .high_air]
      let h2 := hs2.getD (env.choiceNat 3 % hs2.length) .low_air
      let (o2, d2) := create_pill_obstacle env 1 s h2
      let o2 := { o2 with x := o2.x + env.uniform 24 2 3 }
      ([o1, o2], [d1, d2])
  | .triple =>
      let heights := env.shuffled.take 3
      let r := heights.foldl
        (fun (acc : List Obstacle × List ObsData × ℕ) h =>
          let (o, d) := create_pill_obstacle env acc.2.2 s h
          let o := { o with x := o.x + (acc.2.2 : ℚ) * (18/10) }
          (acc.1 ++ [o], acc.2.1 ++ [d], acc.2.2 + 1))
        ([], [], 0)
      (r.1, r.2.1)

/-- The placement-safety test of `create_lifeline` (src/main.py:343-351):
a candidate altitude is safe when no obstacle in the spawn-adjacent X window
sits within 1.5 world units of it vertically. -/
def lifeline_safe_y (s : GameState) (y : ℚ) : Bool :=
  s.obstacles.enum.all fun p =>
    if p.2.x > 23 ∧ p.2.x < 27 then
      let obs_y :=
        match s.obstacle_data.get? p.1 with
        | some d => d.base_y
        | none => p.2.y
      decide (¬ |y - obs_y| < (15/10))
    else true

/-- The retry loop of `create_lifeline` (src/main.py:339-357): up to 10
altitude draws, falling back to `-2.8` when all are unsafe. The argument
counts the attempts still available. -/
def create_lifeline_y (env : Env) (s : GameState) : ℕ → ℚ
  | 0 => -(28/10)
  | n + 1 =>
      let attempt := 10 - (n + 1)
      let potential_y := env.uniform (30 + attempt) (-5) (-3)
      if lifeline_safe_y s potential_y then potential_y
      else create_lifeline_y env s n

/-- `create_lifeline` (src/main.py:334-373). -/
def create_lifeline (env : Env) (s : GameState) : Lifeline × LifeData :=
  let base_y := create_lifeline_y env s 10
  ({ x := 25, y := base_y, width := (15/10), height := (15/10) },
   { base_y := base_y
     animation_offset := env.uniform 40 0 (628/100)
     animation_speed := env.uniform 41 (15/10) 3
     pulse_offset := env.uniform 42 0 (628/100) })

/-- `collect_lifeline` (src/main.py:375-383). -/
def collect_lifeline (i : ℕ) (s : GameState) : GameState :=
  let s := { s with lives := s.lives + 1 }
  if i < s.lifelines.length then
    let s := { s with lifelines := s.lifelines.eraseIdx i }
    if i < s.lifeline_data.length then
      { s with lifeline_data := s.lifeline_data.eraseIdx i }
    else s
  else s

/-- `lose_life` (src/main.py:385-394): decrement lives, then either the
game-over transition (lives now ≤ 0) or an invulnerability window. -/
def lose_life (s : GameState) : GameState :=
  if s.lives - 1 ≤ 0 then
    { s with lives := s.lives - 1, game_running := false, game_over_screen := true }
  else
    { s with lives := s.lives - 1, invulnerable := true,
             invulnerable_timer := invulnerable_duration }

/-- `reset_game_state` (src/main.py:139-177); the two spawn clocks live on
the object but are not touched by this method. -/
def reset_game_state (s : GameState) : GameState :=
  { player_x := -5
    player_y := -6
    velocity := 0
    is_jumping := false
    player_rotation := 0
    obstacles := []
    obstacle_data := []
    lifelines := []
    lifeline_data := []
    score := 0
    lives := 5
    difficulty_level := 1
    game_running := true
    game_over_screen := false
    game_paused := false
    invulnerable := false
    invulnerable_timer := 0
    show_999_forever := false
    speed := base_speed
    last_spawn_time := s.last_spawn_time
    last_lifeline_spawn_time := s.last_lifeline_spawn_time }

/-- `restart_game` (src/main.py:592-597): reset, re-arm both spawn clocks
to the current wall-clock time, clear the game-over overlay. -/
def restart_game (now : ℚ) (s : GameState) : GameState :=
  let s := reset_game_state s
  { s with
    last_spawn_time := now
    last_lifeline_spawn_time := now
    game_over_screen := false }

/-- The state produced at program start (`__init__` calls
`reset_game_state` and then stamps both spawn clocks, src/main.py:58-62). -/
def initial_state (t0 : ℚ) : GameState :=
  { player_x := -5
    player_y := -6
    velocity := 0
    is_jumping := false
    player_rotation := 0
    obstacles := []
    obstacle_data := []
    lifelines := []
    lifeline_data := []
    score := 0
    lives := 5
    difficulty_level := 1
    game_running := true
    game_over_screen := false
    game_paused := false
    invulnerable := false
    invulnerable_timer := 0
    show_999_forever := false
    speed := base_speed
    last_spawn_time := t0
    last_lifeline_spawn_time := t0 }

/-- The invulnerability countdown at the top of `update`
(src/main.py:411-415); this is the only place `dt` is consumed. -/
def invuln_step (dt : ℚ) (s : GameState) : GameState :=
  if s.invulnerable then
    let t := s.invulnerable_timer - dt
    if t ≤ 0 then { s with invulnerable_timer := t, invulnerable := false }
    else { s with invulnerable_timer := t }
  else s

/-- Gravity and the ground clamp (src/main.py:417-425). -/
def physics_step (s : GameState) : GameState :=
  let v := s.velocity - gravity
  let y := s.player_y + v
  let s := { s with velocity := v, player_y := y }
  if s.player_y ≤ -6 then
    { s with player_y := -6, velocity := 0, is_jumping := false }
  else s

/-- The visual-rotation update (src/main.py:427-428). -/
def rotation_step (s : GameState) : GameState :=
  { s with player_rotation := if s.is_jumping then 10 else 0 }

/-- One iteration of the obstacle loop of `update` (src/main.py:437-462):
move, animate, first-hit collision (which `break`s), despawn marking. The
accumulator is (state, indices marked for removal, loop-broken flag). -/
def obs_tick (env : Env) (acc : GameState × List ℕ × Bool) (i : ℕ) :
    GameState × List ℕ × Bool :=
  let (s, rem, broke) := acc
  if broke then acc
  else
    match s.obstacles.get? i with
    | none => acc
    | some obs =>
      let obs := { obs with x := obs.x - s.speed }
      let (obs, s) :=
        match s.obstacle_data.get? i with
        | some d =>
          let d := { d with
            animation_offset := d.animation_offset + d.animation_speed * (2/100) }
          let float_amount := env.sin d.animation_offset * (3/10)
          ({ obs with y := d.base_y + float_amount },
           { s with obstacle_data := s.obstacle_data.set i d })
        | none => (obs, s)
      let s := { s with obstacles := s.obstacles.set i obs }
      if |s.player_x - obs.x| < (12/10) ∧ |s.player_y - obs.y| < (12/10) ∧
          s.invulnerable = false then
        (lose_life s, rem, true)
      else if obs.x < -25 then
        let s := { s with score := s.score + 1 }
        let s := update_difficulty s
        let s := if s.score ≥ 999 then { s with show_999_forever := true } else s
        (s, rem ++ [i], false)
      else (s, rem, false)

/-- One step of the reaping pass (the body of the removal loops,
src/main.py:465-469 and 500-504): pop the entity at index `i` when the
index is in range, and then, again guardedly, its parallel record. -/
def remove_step {α β : Type} (p : List α × List β) (i : ℕ) : List α × List β :=
  if i < p.1.length then
    let l1 := p.1.eraseIdx i
    if i < p.2.length then (l1, p.2.eraseIdx i) else (l1, p.2)
  else p

/-- The index-safe reaping pass shared by obstacles and lifelines
(src/main.py:464-469 and 499-504): iterate the marked indices in reverse. -/
def remove_indexed {α β : Type} (rem : List ℕ) (ol : List α) (dl : List β) :
    List α × List β :=
  rem.reverse.foldl remove_step (ol, dl)

/-- The obstacle half of `update`: the loop over all obstacles followed by
the reaping pass (src/main.py:436-469). -/
def obs_phase (env : Env) (s : GameState) : GameState :=
  let r := (List.range s.obstacles.length).foldl (obs_tick env) (s, [], false)
  let s := r.1
  let (ol, dl) := remove_indexed r.2.1 s.obstacles s.obstacle_data
  { s with obstacles := ol, obstacle_data := dl }

/-- One iteration of the lifeline loop of `update` (src/main.py:471-497):
move, animate (including the size pulse), collection (which `break`s),
despawn marking. -/
def life_tick (env : Env) (acc : GameState × List ℕ × Bool) (i : ℕ) :
    GameState × List ℕ × Bool :=
  let (s, rem, broke) := acc
  if broke then acc
  else
    match s.lifelines.get? i with
    | none => acc
    | some lf =>
      let lf := { lf with x := lf.x - s.speed }
      let (lf, s) :=
        match s.lifeline_data.get? i with
        | some d =>
          let d := { d with
            animation_offset := d.animation_offset + d.animation_speed * (2/100)
            pulse_offset := d.pulse_offset + (5/100) }
          let float_amount := env.sin d.animation_offset * (4/10)
          let pulse_scale := 1 + env.sin d.pulse_offset * (2/10)
          ({ lf with
              y := d.base_y + float_amount
              width := (12/10) * pulse_scale
              height := (12/10) * pulse_scale },
           { s with lifeline_data := s.lifeline_data.set i d })
        | none => (lf, s)
      let s := { s with lifelines := s.lifelines.set i lf }
      if |s.player_x - lf.x| < (13/10) ∧ |s.player_y - lf.y| < (13/10) then
        (collect_lifeline i s, rem, true)
      else if lf.x < -25 then
        (s, rem ++ [i], false)
      else (s, rem, false)

/-- The lifeline half of `update` (src/main.py:471-504). -/
def life_phase (env : Env) (s : GameState) : GameState :=
  let r := (List.range s.lifelines.length).foldl (life_tick env) (s, [], false)
  let s := r.1
  let (ll, dl) := remove_indexed r.2.1 s.lifelines s.lifeline_data
  { s with lifelines := ll, lifeline_data := dl }

/-- The obstacle spawn check of `update` (src/main.py:506-515). -/
def spawn_obstacles (env : Env) (s : GameState) : GameState :=
  let (spawn_min, spawn_max) := get_spawn_timing s
  if env.now - s.last_spawn_time > env.uniform 0 spawn_min spawn_max then
    let pattern_type := get_obstacle_pattern env s
    let (new_obstacles, new_data) := create_obstacle_pattern env s pattern_type
    { s with
      obstacles := s.obstacles ++ new_obstacles
      obstacle_data := s.obstacle_data ++ new_data
      last_spawn_time := env.now }
  else s

/-- The lifeline spawn check of `update` (src/main.py:517-525); note the
spawn clock is re-armed only when the 50% coin flip also succeeds. -/
def spawn_lifelines (env : Env) (s : GameState) : GameState :=
  let (lifeline_min, lifeline_max) := get_lifeline_spawn_timing s
  if env.now - s.last_lifeline_spawn_time >
      env.uniform 1 lifeline_min lifeline_max then
    if env.rand01 < (5/10) then
      let (new_lifeline, new_data) := create_lifeline env s
      { s with
        lifelines := s.lifelines ++ [new_lifeline]
        lifeline_data := s.lifeline_data ++ [new_data]
        last_lifeline_spawn_time := env.now }
    else s
  else s

/-- `update` (src/main.py:396-525): the single per-tick entry point. The
music keep-alive (src/main.py:401-409) is pure I/O and does not touch
simulation state. -/
def update (env : Env) (dt : ℚ) (s : GameState) : GameState :=
  if !s.game_running || s.game_paused then s
  else
    let s := invuln_step dt s
    let s := physics_step s
    let s := rotation_step s
    let s := obs_phase env s
    let s := life_phase env s
    let s := spawn_obstacles env s
    spawn_lifelines env s

/-- `toggle_pause` (src/main.py:527-536), minus the audio side effect. -/
def toggle_pause (s : GameState) : GameState :=
  { s with game_paused := !s.game_paused }

/-- The simulation-relevant keys of `handle_input` (src/main.py:558-590).
`other` stands for any key the simulation ignores (ESC and the quit chords
only touch the window and process, not the game state). -/
inductive GameKey
  | p
  | space
  | r
  | f1
  | other
deriving DecidableEq, Repr

/-- The state transition of one `KEYDOWN` event in `handle_input`
(src/main.py:558-590). `now` is the wall clock a restart re-arms the spawn
timers with. -/
def handle_key (now : ℚ) (k : GameKey) (s : GameState) : GameState :=
  match k with
  | .p => if s.game_running then toggle_pause s else s
  | .space =>
      if s.game_running && !s.game_paused then
        if !s.is_jumping then
          { s with velocity := jump_force, is_jumping := true }
        else if s.player_y < max_jump_height ∧ s.velocity > 0 then
          { s with velocity := s.velocity + jump_force * air_control * (3/10) }
        else s
      else s
  | .r => if !s.game_running then restart_game now s else s
  | .f1 =>
      if s.game_running && !s.game_paused then
        let s := { s with score := 999 }
        let s := update_difficulty s
        { s with show_999_forever := true }
      else s
  | .other => s

instance : Inhabited Obstacle := ⟨⟨0, 0, 0, 0⟩⟩

instance : Inhabited ObsData := ⟨⟨0, 0, 0⟩⟩

/-- The despawn test of the obstacle loop (src/main.py:456): an obstacle
whose x coordinate has moved below -25 this tick is marked for removal. -/
def despawnedP (sp : ℚ) (o : Obstacle) : Bool :=
  decide (o.x - sp < -25)

/-! ### Concrete oracles and states used by witnesses and counterexamples -/

/-- A benign oracle: sine identically 0 (within the range of the real
sine), the wall clock frozen at the spawn clocks' origin (so no spawn
condition can fire from a state whose clocks read 0), every uniform draw
at its lower bound, every choice at index 0, the coin flip failing. -/
def envW : Env :=
  { sin := fun _ => 0
    now := 0
    uniform := fun _ a _ => a
    choiceNat := fun _ => 0
    rand01 := 1
    shuffled := [.ground, .mid_air, .high_air] }

/-- The same oracle with the wall clock at 3 seconds: enough elapsed time
for the obstacle spawn condition to fire from a freshly reset state, but
not for the lifeline one. -/
def envC8 : Env := { envW with now := 3 }

/-- A freshly started game, paused. -/
def paused_state : GameState := { initial_state 0 with game_paused := true }

/-- A running state whose score has gone past 999 (the score keeps
incrementing after the sticky flag fires, so such states occur). -/
def over999_state : GameState :=
  { initial_state 0 with
      score := 1000
      difficulty_level := 15
      show_999_forever := true
      speed := (6/10) }

/-- A state at difficulty level 9. -/
def level9_state : GameState := { initial_state 0 with difficulty_level := 9 }

/-- A late-run state: level 15, score 140, player invulnerable, two
obstacles of which exactly one (at x = -24.5, moving at speed 0.6) crosses
the -25 despawn threshold this tick. -/
def c4_state : GameState :=
  { initial_state 0 with
      score := 140
      difficulty_level := 15
      speed := (6/10)
      invulnerable := true
      invulnerable_timer := 10
      obstacles := [⟨-(245/10), -(55/10), (15/10), (15/10)⟩,
                    ⟨0, -(55/10), (15/10), (15/10)⟩]
      obstacle_data := [⟨-(55/10), 0, (15/10)⟩, ⟨-(55/10), 0, (15/10)⟩] }

/-- A state in which the single obstacle collides with the grounded,
non-invulnerable player on the next tick (after moving by the base speed
it sits at x = -4.62, within 1.2 of the player's x = -5; its animated y is
-5.5, within 1.2 of the player's y = -6). -/
def c4b_state : GameState :=
  { initial_state 0 with
      obstacles := [⟨-(45/10), -(55/10), (15/10), (15/10)⟩]
      obstacle_data := [⟨-(55/10), 0, (15/10)⟩] }

/-- A running state holding one freshly created lifeline (created through
`create_lifeline` itself, so its width is the creation size 1.5). -/
def s9_state : GameState :=
  { initial_state 0 with
      lifelines := [(create_lifeline envW (initial_state 0)).1]
      lifeline_data := [(create_lifeline envW (initial_state 0)).2] }

/-! ### Difficulty curve (claims C1, C2) -/

/-- C1: for every score S ≥ 0 (scores are naturals), after
`update_difficulty` runs the difficulty level equals `min(15, S // 10 + 1)`;
consequently the level function changes exactly when the score crosses
10, 20, ..., 140, and the level never exceeds 15. -/
theorem c1_update_difficulty_level (s : GameState) :
    (update_difficulty s).difficulty_level = min 15 (s.score / 10 + 1) ∧
    (update_difficulty s).difficulty_level ≤ 15 ∧
    (∀ S : ℕ, levelOf (S + 1) ≠ levelOf S ↔ ((S + 1) % 10 = 0 ∧ S + 1 ≤ 140)) := by
  have hmain : (update_difficulty s).difficulty_level = min 15 (s.score / 10 + 1) := by
    unfold update_difficulty
    split
    · simp [levelOf, max_difficulty_level]
    · next h =>
      simp only [ne_eq, not_not] at h
      simp [← h, levelOf, max_difficulty_level]
  refine ⟨hmain, ?_, ?_⟩
  · omega
  · intro S
    unfold levelOf max_difficulty_level
    omega

/-- C2: for every difficulty level L ≤ 15, `get_current_speed` equals
`base_speed * (1 + (L/15) * 4)`; the speed is monotonically non-decreasing
in the level, and at L = 15 it is exactly 5 times `base_speed`. -/
theorem c2_current_speed (s : GameState) :
    (s.difficulty_level ≤ 15 →
      get_current_speed s = base_speed * (1 + ((s.difficulty_level : ℚ) / 15) * 4)) ∧
    (∀ t : GameState, s.difficulty_level ≤ t.difficulty_level →
      get_current_speed s ≤ get_current_speed t) ∧
    (s.difficulty_level = 15 → get_current_speed s = 5 * base_speed) := by
  refine ⟨?_, ?_, ?_⟩
  · intro h
    have h15 : ((s.difficulty_level : ℚ) / 15) ≤ 1 := by
      rw [div_le_one (by norm_num)]
      exact_mod_cast h
    unfold get_current_speed get_difficulty_multiplier max_difficulty_level
    norm_num [min_eq_left h15]
  · intro t h
    have hm : get_difficulty_multiplier s ≤ get_difficulty_multiplier t := by
      unfold get_difficulty_multiplier
      refine min_le_min ?_ le_rfl
      have h' : (s.difficulty_level : ℚ) ≤ (t.difficulty_level : ℚ) := by exact_mod_cast h
      gcongr
    unfold get_current_speed
    have hb : (0 : ℚ) ≤ base_speed := by norm_num [base_speed]
    nlinarith [hm, hb]
  · intro h
    unfold get_current_speed get_difficulty_multiplier max_difficulty_level
    rw [h]
    norm_num [base_speed]

/-- Witness for C2 at the boundary level 15: the hypotheses are satisfiable
and the 5× bound is attained. -/
theorem c2_current_speed_witness :
    get_current_speed { initial_state 0 with difficulty_level := 15 } = 5 * base_speed ∧
    ({ initial_state 0 with difficulty_level := 15 } : GameState).difficulty_level = 15 :=
  ⟨(c2_current_speed { initial_state 0 with difficulty_level := 15 }).2.2 rfl, rfl⟩

/-! ### Restart (claim C7) -/

/-- C7: `restart_game` performs the full per-run reset: score 0, lives 5,
difficulty 1, all four entity collections empty, the 999-sticky flag
cleared, and the state machine back to Running (not paused, no game-over
overlay). -/
theorem c7_restart_game (now : ℚ) (s : GameState) :
    (restart_game now s).score = 0 ∧
    (restart_game now s).lives = 5 ∧
    (restart_game now s).difficulty_level = 1 ∧
    (restart_game now s).obstacles = [] ∧
    (restart_game now s).obstacle_data = [] ∧
    (restart_game now s).lifelines = [] ∧
    (restart_game now s).lifeline_data = [] ∧
    (restart_game now s).show_999_forever = false ∧
    (restart_game now s).game_running = true ∧
    (restart_game now s).game_over_screen = false ∧
    (restart_game now s).game_paused = false := by
  refine ⟨rfl, rfl, rfl, rfl, rfl, rfl, rfl, rfl, rfl, rfl, rfl⟩

/-! ### State machine: pause, game over, freezing (claim C3) -/

/-- C3: in a paused state or once the run is over (`game_running` cleared),
`update` leaves the entire simulation state unchanged for every `dt` and
every environment; and `lose_life` performs the transition to the game-over
state exactly when the decremented lives counter reaches 0 (afterwards
`game_running` is false, so by the first part every further `update` is a
no-op until restart, i.e. the transition happens exactly once). -/
theorem c3_frozen_and_game_over :
    (∀ (env : Env) (dt : ℚ) (s : GameState),
        s.game_running = false ∨ s.game_paused = true → update env dt s = s) ∧
    (∀ s : GameState, s.game_running = true → s.game_over_screen = false →
        (((lose_life s).game_running = false ∧ (lose_life s).game_over_screen = true)
          ↔ s.lives ≤ 1)) := by
  constructor
  · intro env dt s h
    unfold update
    rcases h with h | h <;> simp [h]
  · intro s h1 h2
    unfold lose_life
    split
    · next h => simpa using by omega
    · next h => simp [h1, h2]; omega

/-- Witness for C3: a concrete paused state is frozen by `update`, and a
concrete running state with one life transitions to game over. -/
theorem c3_frozen_and_game_over_witness :
    (update envW 1 paused_state = paused_state) ∧
    ((lose_life { initial_state 0 with lives := 1 }).game_running = false ∧
      (lose_life { initial_state 0 with lives := 1 }).game_over_screen = true) :=
  ⟨c3_frozen_and_game_over.1 envW 1 paused_state (Or.inr rfl),
   (c3_frozen_and_game_over.2 { initial_state 0 with lives := 1 } rfl rfl).mpr
     (by norm_num)⟩

/-! ### dt-(in)dependence of update (claim C8) -/

/-- C8 as amended: `dt` feeds only the invulnerability countdown, so for
any state in which the player is not invulnerable, `update` with any `dt`
coincides with `update` with `dt = 0` — but `update` with `dt = 0` is not a
no-op on score/difficulty/entity counts, because entity movement is
per-tick and spawning is wall-clock driven (see the counterexample). -/
theorem c8_update_dt_independent (env : Env) (dt : ℚ) (s : GameState)
    (h : s.invulnerable = false) : update env dt s = update env 0 s := by
  unfold update
  split
  · rfl
  · simp [invuln_step, h]

/-- Witness for C8 at a concrete non-invulnerable state. -/
theorem c8_update_dt_independent_witness :
    update envW 1 (initial_state 0) = update envW 0 (initial_state 0) ∧
    (initial_state 0).invulnerable = false :=
  ⟨c8_update_dt_independent envW 1 (initial_state 0) rfl, rfl⟩

/-- Counterexample to C8 as stated: from the freshly started (hence
reachable, running) state, a single `update` call with `dt = 0` changes the
number of obstacles from 0 to 1 — the obstacle spawn timer is wall-clock
driven, and 3 seconds have elapsed on `envC8`'s clock. -/
theorem c8_counterexample :
    (initial_state 0).obstacles.length = 0 ∧
    (initial_state 0).game_running = true ∧
    (update envC8 0 (initial_state 0)).obstacles.length = 1 := by
  refine ⟨rfl, rfl, ?_⟩
  norm_num [update, invuln_step, physics_step, rotation_step, obs_phase, life_phase,
    remove_indexed, spawn_obstacles, spawn_lifelines, get_spawn_timing,
    get_lifeline_spawn_timing, get_difficulty_multiplier, initial_state,
    envC8, envW, max_difficulty_level, base_spawn_min, base_spawn_max,
    base_lifeline_spawn_min, base_lifeline_spawn_max, gravity, base_speed,
    get_obstacle_pattern, patternChoices, create_obstacle_pattern, create_pill_obstacle,
    max_def, min_def, List.range_zero, List.foldl_nil]

/-! ### Pattern selection (claim C5) -/

/-- C5 as amended: `get_obstacle_pattern` always returns a pattern of the
level's choice list; it never returns a pattern whose table threshold
exceeds the level; every member of the choice list is a possible outcome of
the random choice; and the choice list contains exactly the patterns whose
threshold is met — except `double_stack`, which is dropped again at levels
≥ 9 (this is where the claim's table reading fails, see the
counterexample). -/
theorem c5_pattern_gating (env : Env) (s : GameState)
    (hl : 1 ≤ s.difficulty_level) :
    patternThreshold (get_obstacle_pattern env s) ≤ s.difficulty_level ∧
    (∀ p : Pattern, p ∈ patternChoices s ↔
      (patternThreshold p ≤ s.difficulty_level ∧
        ¬(p = .doubleStack ∧ 9 ≤ s.difficulty_level))) ∧
    (∀ p ∈ patternChoices s, ∃ c : ℕ,
      get_obstacle_pattern { env with choiceNat := fun _ => c } s = p) := by
  have hne : patternChoices s ≠ [] := by
    unfold patternChoices
    split_ifs <;> simp
  have hmem : ∀ (env' : Env), get_obstacle_pattern env' s ∈ patternChoices s := by
    intro env'
    unfold get_obstacle_pattern
    have hpos : 0 < (patternChoices s).length := List.length_pos.mpr hne
    have hlt : env'.choiceNat 0 % (patternChoices s).length <
        (patternChoices s).length := Nat.mod_lt _ hpos
    rw [List.getD_eq_getElem _ _ hlt]
    exact List.getElem_mem hlt
  have hchar : ∀ p : Pattern, p ∈ patternChoices s ↔
      (patternThreshold p ≤ s.difficulty_level ∧
        ¬(p = .doubleStack ∧ 9 ≤ s.difficulty_level)) := by
    intro p
    unfold patternChoices
    split_ifs with h1 h2 h3 h4 <;> cases p <;>
      simp only [List.mem_cons, List.not_mem_nil, or_false, reduceCtorEq,
        patternThreshold, false_or, or_self] <;>
      simp <;> omega
  refine ⟨(hchar _).mp (hmem env) |>.1, hchar, ?_⟩
  intro p hp
  obtain ⟨n, hn, he⟩ := List.getElem_of_mem hp
  refine ⟨n, ?_⟩
  show (patternChoices s).getD (n % (patternChoices s).length) Pattern.singleGround = p
  rw [Nat.mod_eq_of_lt hn, List.getD_eq_getElem _ _ hn]
  exact he

/-- Witness for C5 at level 1: the returned pattern's threshold is met. -/
theorem c5_pattern_gating_witness :
    patternThreshold (get_obstacle_pattern envW (initial_state 0)) ≤
      (initial_state 0).difficulty_level ∧
    1 ≤ (initial_state 0).difficulty_level :=
  ⟨(c5_pattern_gating envW (initial_state 0) (by decide)).1, by decide⟩

/-- Counterexample to C5 as stated: at difficulty level 9 the pattern
`double_stack` meets its table threshold (3 ≤ 9) yet is not in the choice
list of `get_obstacle_pattern` — the code drops it again at levels ≥ 9 — so
it is not a possible outcome there. -/
theorem c5_counterexample :
    patternThreshold Pattern.doubleStack ≤ level9_state.difficulty_level ∧
    Pattern.doubleStack ∉ patternChoices level9_state := by
  decide

/-! ### Field-preservation lemmas for the individual operations -/

theorem lose_life_obstacles (s : GameState) : (lose_life s).obstacles = s.obstacles := by
  unfold lose_life; split <;> rfl

theorem lose_life_obstacle_data (s : GameState) :
    (lose_life s).obstacle_data = s.obstacle_data := by
  unfold lose_life; split <;> rfl

theorem lose_life_lifelines (s : GameState) : (lose_life s).lifelines = s.lifelines := by
  unfold lose_life; split <;> rfl

theorem lose_life_lifeline_data (s : GameState) :
    (lose_life s).lifeline_data = s.lifeline_data := by
  unfold lose_life; split <;> rfl

theorem lose_life_score (s : GameState) : (lose_life s).score = s.score := by
  unfold lose_life; split <;> rfl

theorem lose_life_lives (s : GameState) : (lose_life s).lives = s.lives - 1 := by
  unfold lose_life; split <;> rfl

theorem lose_life_speed (s : GameState) : (lose_life s).speed = s.speed := by
  unfold lose_life; split <;> rfl

theorem lose_life_difficulty (s : GameState) :
    (lose_life s).difficulty_level = s.difficulty_level := by
  unfold lose_life; split <;> rfl

theorem lose_life_player_x (s : GameState) : (lose_life s).player_x = s.player_x := by
  unfold lose_life; split <;> rfl

theorem lose_life_player_y (s : GameState) : (lose_life s).player_y = s.player_y := by
  unfold lose_life; split <;> rfl

theorem lose_life_last_spawn (s : GameState) :
    (lose_life s).last_spawn_time = s.last_spawn_time := by
  unfold lose_life; split <;> rfl

theorem lose_life_last_lifeline_spawn (s : GameState) :
    (lose_life s).last_lifeline_spawn_time = s.last_lifeline_spawn_time := by
  unfold lose_life; split <;> rfl

theorem lose_life_game_paused (s : GameState) :
    (lose_life s).game_paused = s.game_paused := by
  unfold lose_life; split <;> rfl

theorem update_difficulty_obstacles (s : GameState) :
    (update_difficulty s).obstacles = s.obstacles := by
  unfold update_difficulty; split <;> rfl

theorem update_difficulty_obstacle_data (s : GameState) :
    (update_difficulty s).obstacle_data = s.obstacle_data := by
  unfold update_difficulty; split <;> rfl

theorem update_difficulty_lifelines (s : GameState) :
    (update_difficulty s).lifelines = s.lifelines := by
  unfold update_difficulty; split <;> rfl

theorem update_difficulty_lifeline_data (s : GameState) :
    (update_difficulty s).lifeline_data = s.lifeline_data := by
  unfold update_difficulty; split <;> rfl

theorem update_difficulty_score (s : GameState) :
    (update_difficulty s).score = s.score := by
  unfold update_difficulty; split <;> rfl

theorem update_difficulty_lives (s : GameState) :
    (update_difficulty s).lives = s.lives := by
  unfold update_difficulty; split <;> rfl

theorem update_difficulty_player_x (s : GameState) :
    (update_difficulty s).player_x = s.player_x := by
  unfold update_difficulty; split <;> rfl

theorem update_difficulty_player_y (s : GameState) :
    (update_difficulty s).player_y = s.player_y := by
  unfold update_difficulty; split <;> rfl

theorem update_difficulty_invulnerable (s : GameState) :
    (update_difficulty s).invulnerable = s.invulnerable := by
  unfold update_difficulty; split <;> rfl

theorem update_difficulty_game_running (s : GameState) :
    (update_difficulty s).game_running = s.game_running := by
  unfold update_difficulty; split <;> rfl

theorem update_difficulty_game_paused (s : GameState) :
    (update_difficulty s).game_paused = s.game_paused := by
  unfold update_difficulty; split <;> rfl

theorem update_difficulty_last_spawn (s : GameState) :
    (update_difficulty s).last_spawn_time = s.last_spawn_time := by
  unfold update_difficulty; split <;> rfl

theorem update_difficulty_last_lifeline_spawn (s : GameState) :
    (update_difficulty s).last_lifeline_spawn_time = s.last_lifeline_spawn_time := by
  unfold update_difficulty; split <;> rfl

/-- `update_difficulty` is a no-op once the score has reached the last
tier boundary (140) and the level is already at the cap. -/
theorem update_difficulty_noop (s : GameState) (h9 : 140 ≤ s.score)
    (h15 : s.difficulty_level = 15) : update_difficulty s = s := by
  unfold update_difficulty
  rw [if_neg]
  unfold levelOf max_difficulty_level
  omega

theorem collect_lifeline_obstacles (i : ℕ) (s : GameState) :
    (collect_lifeline i s).obstacles = s.obstacles := by
  unfold collect_lifeline; dsimp only; split
  · split <;> rfl
  · rfl

theorem collect_lifeline_obstacle_data (i : ℕ) (s : GameState) :
    (collect_lifeline i s).obstacle_data = s.obstacle_data := by
  unfold collect_lifeline; dsimp only; split
  · split <;> rfl
  · rfl

theorem collect_lifeline_score (i : ℕ) (s : GameState) :
    (collect_lifeline i s).score = s.score := by
  unfold collect_lifeline; dsimp only; split
  · split <;> rfl
  · rfl

theorem collect_lifeline_lives (i : ℕ) (s : GameState) :
    (collect_lifeline i s).lives = s.lives + 1 := by
  unfold collect_lifeline; dsimp only; split
  · split <;> rfl
  · rfl

theorem collect_lifeline_speed (i : ℕ) (s : GameState) :
    (collect_lifeline i s).speed = s.speed := by
  unfold collect_lifeline; dsimp only; split
  · split <;> rfl
  · rfl

theorem collect_lifeline_difficulty (i : ℕ) (s : GameState) :
    (collect_lifeline i s).difficulty_level = s.difficulty_level := by
  unfold collect_lifeline; dsimp only; split
  · split <;> rfl
  · rfl

theorem collect_lifeline_last_spawn (i : ℕ) (s : GameState) :
    (collect_lifeline i s).last_spawn_time = s.last_spawn_time := by
  unfold collect_lifeline; dsimp only; split
  · split <;> rfl
  · rfl

theorem invuln_step_only_timer (dt : ℚ) (s : GameState) :
    (invuln_step dt s).obstacles = s.obstacles ∧
    (invuln_step dt s).obstacle_data = s.obstacle_data ∧
    (invuln_step dt s).lifelines = s.lifelines ∧
    (invuln_step dt s).lifeline_data = s.lifeline_data ∧
    (invuln_step dt s).score = s.score ∧
    (invuln_step dt s).lives = s.lives ∧
    (invuln_step dt s).speed = s.speed ∧
    (invuln_step dt s).difficulty_level = s.difficulty_level ∧
    (invuln_step dt s).player_x = s.player_x ∧
    (invuln_step dt s).player_y = s.player_y ∧
    (invuln_step dt s).last_spawn_time = s.last_spawn_time ∧
    (invuln_step dt s).last_lifeline_spawn_time = s.last_lifeline_spawn_time ∧
    (invuln_step dt s).game_running = s.game_running ∧
    (invuln_step dt s).game_paused = s.game_paused := by
  unfold invuln_step
  dsimp only
  split
  · split <;> exact ⟨rfl, rfl, rfl, rfl, rfl, rfl, rfl, rfl, rfl, rfl, rfl, rfl, rfl, rfl⟩
  · exact ⟨rfl, rfl, rfl, rfl, rfl, rfl, rfl, rfl, rfl, rfl, rfl, rfl, rfl, rfl⟩

theorem physics_step_only_player (s : GameState) :
    (physics_step s).obstacles = s.obstacles ∧
    (physics_step s).obstacle_data = s.obstacle_data ∧
    (physics_step s).lifelines = s.lifelines ∧
    (physics_step s).lifeline_data = s.lifeline_data ∧
    (physics_step s).score = s.score ∧
    (physics_step s).lives = s.lives ∧
    (physics_step s).speed = s.speed ∧
    (physics_step s).difficulty_level = s.difficulty_level ∧
    (physics_step s).player_x = s.player_x ∧
    (physics_step s).invulnerable = s.invulnerable ∧
    (physics_step s).invulnerable_timer = s.invulnerable_timer ∧
    (physics_step s).last_spawn_time = s.last_spawn_time ∧
    (physics_step s).last_lifeline_spawn_time = s.last_lifeline_spawn_time ∧
    (physics_step s).game_running = s.game_running ∧
    (physics_step s).game_paused = s.game_paused := by
  unfold physics_step
  dsimp only
  split <;>
    exact ⟨rfl, rfl, rfl, rfl, rfl, rfl, rfl, rfl, rfl, rfl, rfl, rfl, rfl, rfl, rfl⟩

theorem spawn_obstacles_only_obstacles (env : Env) (s : GameState) :
    (spawn_obstacles env s).lifelines = s.lifelines ∧
    (spawn_obstacles env s).lifeline_data = s.lifeline_data ∧
    (spawn_obstacles env s).score = s.score ∧
    (spawn_obstacles env s).lives = s.lives ∧
    (spawn_obstacles env s).speed = s.speed ∧
    (spawn_obstacles env s).difficulty_level = s.difficulty_level ∧
    (spawn_obstacles env s).player_x = s.player_x ∧
    (spawn_obstacles env s).player_y = s.player_y ∧
    (spawn_obstacles env s).invulnerable = s.invulnerable ∧
    (spawn_obstacles env s).game_running = s.game_running ∧
    (spawn_obstacles env s).game_paused = s.game_paused ∧
    (spawn_obstacles env s).last_lifeline_spawn_time = s.last_lifeline_spawn_time := by
  unfold spawn_obstacles
  dsimp only
  split <;> exact ⟨rfl, rfl, rfl, rfl, rfl, rfl, rfl, rfl, rfl, rfl, rfl, rfl⟩

theorem spawn_lifelines_only_lifelines (env : Env) (s : GameState) :
    (spawn_lifelines env s).obstacles = s.obstacles ∧
    (spawn_lifelines env s).obstacle_data = s.obstacle_data ∧
    (spawn_lifelines env s).score = s.score ∧
    (spawn_lifelines env s).lives = s.lives ∧
    (spawn_lifelines env s).speed = s.speed ∧
    (spawn_lifelines env s).difficulty_level = s.difficulty_level ∧
    (spawn_lifelines env s).game_running = s.game_running ∧
    (spawn_lifelines env s).game_paused = s.game_paused ∧
    (spawn_lifelines env s).last_spawn_time = s.last_spawn_time := by
  unfold spawn_lifelines
  dsimp only
  split
  · split <;> exact ⟨rfl, rfl, rfl, rfl, rfl, rfl, rfl, rfl, rfl⟩
  · exact ⟨rfl, rfl, rfl, rfl, rfl, rfl, rfl, rfl, rfl⟩

/-- Fold-invariant helper: a property preserved by each step of a left
fold is preserved by the whole fold. -/
theorem foldl_rec {α β : Type} (f : β → α → β) (P : β → Prop)
    (hstep : ∀ b a, P b → P (f b a)) :
    ∀ (l : List α) (b : β), P b → P (l.foldl f b) := by
  intro l
  induction l with
  | nil => intro b hb; exact hb
  | cons a t ih => intro b hb; exact ih _ (hstep b a hb)

/-! ### Parallel-list length preservation (claim C10) -/

theorem remove_step_len_eq {α β : Type} (p : List α × List β) (i : ℕ)
    (h : p.1.length = p.2.length) :
    (remove_step p i).1.length = (remove_step p i).2.length := by
  unfold remove_step
  dsimp only
  split
  · next h1 =>
    rw [if_pos (h ▸ h1)]
    simp only [List.length_eraseIdx, if_pos h1, if_pos (h ▸ h1), h]
  · exact h

theorem remove_indexed_len_eq {α β : Type} (rem : List ℕ) (ol : List α) (dl : List β)
    (h : ol.length = dl.length) :
    (remove_indexed rem ol dl).1.length = (remove_indexed rem ol dl).2.length := by
  unfold remove_indexed
  exact foldl_rec remove_step (fun p => p.1.length = p.2.length)
    (fun p i hp => remove_step_len_eq p i hp) rem.reverse (ol, dl) h

theorem collect_lifeline_len (i : ℕ) (s : GameState)
    (h : s.lifelines.length = s.lifeline_data.length) :
    (collect_lifeline i s).lifelines.length =
      (collect_lifeline i s).lifeline_data.length := by
  unfold collect_lifeline
  dsimp only
  split
  · next hlt =>
    rw [if_pos (h ▸ hlt)]
    simp only [List.length_eraseIdx, if_pos hlt, if_pos (h ▸ hlt), h]
  · exact h

/-- The out-of-range guard of `collect_lifeline`: an index past the end of
the lifeline list changes nothing except the lives counter. -/
theorem collect_lifeline_oob (i : ℕ) (s : GameState) (h : s.lifelines.length ≤ i) :
    collect_lifeline i s = { s with lives := s.lives + 1 } := by
  unfold collect_lifeline
  dsimp only
  rw [if_neg (by omega)]

theorem create_obstacle_pattern_len (env : Env) (s : GameState) (p : Pattern) :
    (create_obstacle_pattern env s p).1.length =
      (create_obstacle_pattern env s p).2.length := by
  cases p <;> unfold create_obstacle_pattern <;> dsimp only
  case singleGround => rfl
  case singleAir => rfl
  case doubleStack => rfl
  case gapVertical => split <;> split <;> simp
  case gapHorizontal => rfl
  case triple =>
    refine foldl_rec _
      (fun acc : List Obstacle × List ObsData × ℕ => acc.1.length = acc.2.1.length)
      ?_ _ _ rfl
    intro b a hb
    dsimp only
    simp [hb]

theorem obs_tick_len (env : Env) (acc : GameState × List ℕ × Bool) (i : ℕ)
    (h : acc.1.obstacles.length = acc.1.obstacle_data.length ∧
         acc.1.lifelines.length = acc.1.lifeline_data.length) :
    (obs_tick env acc i).1.obstacles.length =
        (obs_tick env acc i).1.obstacle_data.length ∧
      (obs_tick env acc i).1.lifelines.length =
        (obs_tick env acc i).1.lifeline_data.length := by
  obtain ⟨s, rem, broke⟩ := acc
  obtain ⟨h1, h2⟩ := h
  dsimp only at h1 h2
  unfold obs_tick
  dsimp only
  repeat' split
  all_goals simp_all [lose_life_obstacles, lose_life_obstacle_data, lose_life_lifelines,
    lose_life_lifeline_data, update_difficulty_obstacles, update_difficulty_obstacle_data,
    update_difficulty_lifelines, update_difficulty_lifeline_data, List.length_set]

theorem collect_lifeline_pair_len (i : ℕ) (s : GameState)
    (h1 : s.obstacles.length = s.obstacle_data.length)
    (h2 : s.lifelines.length = s.lifeline_data.length) :
    (collect_lifeline i s).obstacles.length =
        (collect_lifeline i s).obstacle_data.length ∧
      (collect_lifeline i s).lifelines.length =
        (collect_lifeline i s).lifeline_data.length := by
  constructor
  · rw [collect_lifeline_obstacles, collect_lifeline_obstacle_data]; exact h1
  · exact collect_lifeline_len i s h2

theorem life_tick_len (env : Env) (acc : GameState × List ℕ × Bool) (i : ℕ)
    (h : acc.1.obstacles.length = acc.1.obstacle_data.length ∧
         acc.1.lifelines.length = acc.1.lifeline_data.length) :
    (life_tick env acc i).1.obstacles.length =
        (life_tick env acc i).1.obstacle_data.length ∧
      (life_tick env acc i).1.lifelines.length =
        (life_tick env acc i).1.lifeline_data.length := by
  obtain ⟨s, rem, broke⟩ := acc
  obtain ⟨h1, h2⟩ := h
  dsimp only at h1 h2
  unfold life_tick
  dsimp only
  split
  · exact ⟨h1, h2⟩
  split
  · exact ⟨h1, h2⟩
  rcases hd : s.lifeline_data.get? i with _ | d <;>
    dsimp only <;> split <;>
    first
    | (apply collect_lifeline_pair_len <;> simp [List.length_set, h1, h2])
    | (split <;> simp_all [List.length_set])

theorem obs_phase_len (env : Env) (s : GameState)
    (h1 : s.obstacles.length = s.obstacle_data.length)
    (h2 : s.lifelines.length = s.lifeline_data.length) :
    (obs_phase env s).obstacles.length = (obs_phase env s).obstacle_data.length ∧
      (obs_phase env s).lifelines.length = (obs_phase env s).lifeline_data.length := by
  unfold obs_phase
  have hr := foldl_rec (obs_tick env)
    (fun acc => acc.1.obstacles.length = acc.1.obstacle_data.length ∧
      acc.1.lifelines.length = acc.1.lifeline_data.length)
    (obs_tick_len env) (List.range s.obstacles.length) (s, [], false) ⟨h1, h2⟩
  dsimp only
  rcases hrem : remove_indexed
      ((List.range s.obstacles.length).foldl (obs_tick env) (s, [], false)).2.1
      ((List.range s.obstacles.length).foldl (obs_tick env) (s, [], false)).1.obstacles
      ((List.range s.obstacles.length).foldl (obs_tick env) (s, [], false)).1.obstacle_data
    with ⟨ol, dl⟩
  simp only [hrem]
  have hlen := remove_indexed_len_eq
    ((List.range s.obstacles.length).foldl (obs_tick env) (s, [], false)).2.1
    ((List.range s.obstacles.length).foldl (obs_tick env) (s, [], false)).1.obstacles
    ((List.range s.obstacles.length).foldl (obs_tick env) (s, [], false)).1.obstacle_data
    hr.1
  rw [hrem] at hlen
  exact ⟨hlen, hr.2⟩

theorem life_phase_len (env : Env) (s : GameState)
    (h1 : s.obstacles.length = s.obstacle_data.length)
    (h2 : s.lifelines.length = s.lifeline_data.length) :
    (life_phase env s).obstacles.length = (life_phase env s).obstacle_data.length ∧
      (life_phase env s).lifelines.length = (life_phase env s).lifeline_data.length := by
  unfold life_phase
  have hr := foldl_rec (life_tick env)
    (fun acc => acc.1.obstacles.length = acc.1.obstacle_data.length ∧
      acc.1.lifelines.length = acc.1.lifeline_data.length)
    (life_tick_len env) (List.range s.lifelines.length) (s, [], false) ⟨h1, h2⟩
  dsimp only
  rcases hrem : remove_indexed
      ((List.range s.lifelines.length).foldl (life_tick env) (s, [], false)).2.1
      ((List.range s.lifelines.length).foldl (life_tick env) (s, [], false)).1.lifelines
      ((List.range s.lifelines.length).foldl (life_tick env) (s, [], false)).1.lifeline_data
    with ⟨ll, dl⟩
  simp only [hrem]
  have hlen := remove_indexed_len_eq
    ((List.range s.lifelines.length).foldl (life_tick env) (s, [], false)).2.1
    ((List.range s.lifelines.length).foldl (life_tick env) (s, [], false)).1.lifelines
    ((List.range s.lifelines.length).foldl (life_tick env) (s, [], false)).1.lifeline_data
    hr.2
  rw [hrem] at hlen
  exact ⟨hr.1, hlen⟩

theorem spawn_obstacles_len (env : Env) (t : GameState)
    (h1 : t.obstacles.length = t.obstacle_data.length)
    (h2 : t.lifelines.length = t.lifeline_data.length) :
    (spawn_obstacles env t).obstacles.length =
        (spawn_obstacles env t).obstacle_data.length ∧
      (spawn_obstacles env t).lifelines.length =
        (spawn_obstacles env t).lifeline_data.length := by
  unfold spawn_obstacles
  dsimp only
  split
  · constructor
    · simp [List.length_append, h1, create_obstacle_pattern_len]
    · exact h2
  · exact ⟨h1, h2⟩

theorem spawn_lifelines_len (env : Env) (t : GameState)
    (h1 : t.obstacles.length = t.obstacle_data.length)
    (h2 : t.lifelines.length = t.lifeline_data.length) :
    (spawn_lifelines env t).obstacles.length =
        (spawn_lifelines env t).obstacle_data.length ∧
      (spawn_lifelines env t).lifelines.length =
        (spawn_lifelines env t).lifeline_data.length := by
  unfold spawn_lifelines
  dsimp only
  split
  · split
    · exact ⟨h1, by simp [List.length_append, h2]⟩
    · exact ⟨h1, h2⟩
  · exact ⟨h1, h2⟩

/-- C10: the obstacle list and its animation-record list keep equal
lengths across a whole `update` tick (and likewise the lifeline lists);
`collect_lifeline` pops the entity and its record together, keeping the
lengths equal; an out-of-range collection index touches neither list; and
pattern creation returns entity and record lists of equal length. Together
with the reverse-order, guarded reaping pass (`remove_indexed`) this is the
index-safety invariant of the entity pool. -/
theorem c10_parallel_lists :
    (∀ (env : Env) (dt : ℚ) (s : GameState),
        s.obstacles.length = s.obstacle_data.length →
        s.lifelines.length = s.lifeline_data.length →
        (update env dt s).obstacles.length = (update env dt s).obstacle_data.length ∧
          (update env dt s).lifelines.length = (update env dt s).lifeline_data.length) ∧
    (∀ (i : ℕ) (s : GameState), s.lifelines.length = s.lifeline_data.length →
        (collect_lifeline i s).lifelines.length =
          (collect_lifeline i s).lifeline_data.length) ∧
    (∀ (i : ℕ) (s : GameState), s.lifelines.length ≤ i →
        collect_lifeline i s = { s with lives := s.lives + 1 }) ∧
    (∀ (env : Env) (s : GameState) (p : Pattern),
        (create_obstacle_pattern env s p).1.length =
          (create_obstacle_pattern env s p).2.length) := by
  refine ⟨?_, collect_lifeline_len, collect_lifeline_oob, create_obstacle_pattern_len⟩
  intro env dt s h1 h2
  unfold update
  split
  · exact ⟨h1, h2⟩
  · obtain ⟨ia, ib, ic, id, -⟩ := invuln_step_only_timer dt s
    obtain ⟨pa, pb, pc, pd, -⟩ := physics_step_only_player (invuln_step dt s)
    have h1' : (rotation_step (physics_step (invuln_step dt s))).obstacles.length =
        (rotation_step (physics_step (invuln_step dt s))).obstacle_data.length := by
      show (physics_step (invuln_step dt s)).obstacles.length =
        (physics_step (invuln_step dt s)).obstacle_data.length
      rw [pa, pb, ia, ib]; exact h1
    have h2' : (rotation_step (physics_step (invuln_step dt s))).lifelines.length =
        (rotation_step (physics_step (invuln_step dt s))).lifeline_data.length := by
      show (physics_step (invuln_step dt s)).lifelines.length =
        (physics_step (invuln_step dt s)).lifeline_data.length
      rw [pc, pd, ic, id]; exact h2
    have e3 := obs_phase_len env (rotation_step (physics_step (invuln_step dt s))) h1' h2'
    have e4 := life_phase_len env _ e3.1 e3.2
    have e5 := spawn_obstacles_len env _ e4.1 e4.2
    exact spawn_lifelines_len env _ e5.1 e5.2

/-- Witness for C10 at a concrete state with one obstacle/record pair. -/
theorem c10_parallel_lists_witness :
    ((update envW 1 c4b_state).obstacles.length =
        (update envW 1 c4b_state).obstacle_data.length ∧
      (update envW 1 c4b_state).lifelines.length =
        (update envW 1 c4b_state).lifeline_data.length) ∧
    collect_lifeline 3 (initial_state 0) =
      { initial_state 0 with lives := (initial_state 0).lives + 1 } :=
  ⟨c10_parallel_lists.1 envW 1 c4b_state rfl rfl,
   c10_parallel_lists.2.2.1 3 (initial_state 0) (by simp [initial_state])⟩

/-! ### Score monotonicity (claim C6) -/

theorem obs_tick_score_mono (env : Env) (acc : GameState × List ℕ × Bool) (i : ℕ) :
    acc.1.score ≤ (obs_tick env acc i).1.score := by
  obtain ⟨s, rem, broke⟩ := acc
  unfold obs_tick
  dsimp only
  repeat' split
  all_goals simp_all [lose_life_score, update_difficulty_score, Nat.le_add_right]

theorem life_tick_score (env : Env) (acc : GameState × List ℕ × Bool) (i : ℕ) :
    (life_tick env acc i).1.score = acc.1.score := by
  obtain ⟨s, rem, broke⟩ := acc
  unfold life_tick
  dsimp only
  repeat' split
  all_goals simp_all [collect_lifeline_score]

theorem obs_phase_score_mono (env : Env) (s : GameState) :
    s.score ≤ (obs_phase env s).score := by
  unfold obs_phase
  dsimp only
  exact foldl_rec (obs_tick env) (fun acc => s.score ≤ acc.1.score)
    (fun b a hb => le_trans hb (obs_tick_score_mono env b a)) _ _ (le_refl _)

theorem life_phase_score (env : Env) (s : GameState) :
    (life_phase env s).score = s.score := by
  unfold life_phase
  dsimp only
  exact foldl_rec (life_tick env) (fun acc => acc.1.score = s.score)
    (fun b a hb => (life_tick_score env b a).trans hb) _ _ rfl

/-- C6 as amended: `update` never decreases the score; `handle_key` never
decreases it for non-restart keys as long as the score has not yet passed
999 (the debug key sets it to exactly 999, which is a decrease in states
whose score exceeds 999 — see the counterexample); and input handling sets
the score to 0 only through the restart branch (or if it was 0 already). -/
theorem c6_score_monotone :
    (∀ (env : Env) (dt : ℚ) (s : GameState), s.score ≤ (update env dt s).score) ∧
    (∀ (now : ℚ) (k : GameKey) (s : GameState), k ≠ GameKey.r → s.score ≤ 999 →
        s.score ≤ (handle_key now k s).score) ∧
    (∀ (now : ℚ) (k : GameKey) (s : GameState), (handle_key now k s).score = 0 →
        s.score = 0 ∨ (k = GameKey.r ∧ s.game_running = false)) := by
  refine ⟨?_, ?_, ?_⟩
  · intro env dt s
    unfold update
    split
    · exact le_refl _
    · obtain ⟨-, -, -, -, isc, -⟩ := invuln_step_only_timer dt s
      obtain ⟨-, -, -, -, psc, -⟩ := physics_step_only_player (invuln_step dt s)
      obtain ⟨-, -, osc, -⟩ :=
        spawn_obstacles_only_obstacles env
          (life_phase env (obs_phase env (rotation_step (physics_step (invuln_step dt s)))))
      obtain ⟨-, -, lsc, -⟩ :=
        spawn_lifelines_only_lifelines env
          (spawn_obstacles env
            (life_phase env (obs_phase env (rotation_step (physics_step (invuln_step dt s))))))
      rw [lsc, osc, life_phase_score]
      calc s.score = (invuln_step dt s).score := isc.symm
        _ = (physics_step (invuln_step dt s)).score := psc.symm
        _ = (rotation_step (physics_step (invuln_step dt s))).score := rfl
        _ ≤ _ := obs_phase_score_mono env _
  · intro now k s hk hle
    cases k with
    | p =>
        simp only [handle_key]
        split
        · exact le_refl _
        · exact le_refl _
    | space =>
        simp only [handle_key]
        split
        · split
          · exact le_refl _
          · split <;> exact le_refl _
        · exact le_refl _
    | r => exact absurd rfl hk
    | f1 =>
        simp only [handle_key]
        split
        · rw [update_difficulty_score]
          exact hle
        · exact le_refl _
    | other => exact le_refl _
  · intro now k s h0
    cases k with
    | p =>
        simp only [handle_key] at h0
        left
        revert h0; split <;> exact id
    | space =>
        simp only [handle_key] at h0
        left
        revert h0
        split
        · split
          · exact id
          · split <;> exact id
        · exact id
    | r =>
        simp only [handle_key] at h0
        revert h0
        split
        · next h =>
          intro _
          right
          exact ⟨rfl, by revert h; cases s.game_running <;> simp⟩
        · intro h0; exact Or.inl h0
    | f1 =>
        simp only [handle_key] at h0
        revert h0
        rw [update_difficulty_score]
        split
        · intro h0
          simp at h0
        · intro h0; exact Or.inl h0
    | other => exact Or.inl h0

/-- Witness for C6: monotone at a concrete state (debug key from score
500 raises the score to 999), and the non-restart hypothesis holds. -/
theorem c6_score_monotone_witness :
    ({ initial_state 0 with score := 500 } : GameState).score ≤
      (handle_key 0 GameKey.f1 { initial_state 0 with score := 500 }).score ∧
    (GameKey.f1 ≠ GameKey.r) ∧
    ({ initial_state 0 with score := 500 } : GameState).score ≤ 999 :=
  ⟨c6_score_monotone.2.1 0 GameKey.f1 { initial_state 0 with score := 500 }
      (by decide) (by decide),
   by decide, by decide⟩

/-- Counterexample to C6 as stated: in a run whose score has passed 999
(the despawn counter keeps climbing after the sticky flag fires), the debug
score-max input sets the score back to exactly 999 — a decrease. -/
theorem c6_counterexample :
    over999_state.score = 1000 ∧
    (handle_key 0 GameKey.f1 over999_state).score = 999 ∧
    (handle_key 0 GameKey.f1 over999_state).score < over999_state.score := by
  refine ⟨rfl, ?_, ?_⟩
  · rw [show handle_key 0 GameKey.f1 over999_state =
        { update_difficulty { over999_state with score := 999 } with
            show_999_forever := true } from rfl]
    rw [update_difficulty_score]
  · rw [show handle_key 0 GameKey.f1 over999_state =
        { update_difficulty { over999_state with score := 999 } with
            show_999_forever := true } from rfl]
    rw [update_difficulty_score]
    decide

/-! ### Lifeline animation and pulse (claim C9) -/

/-- C9 as amended: on a running tick, a lifeline that has a parallel
animation record and is not collected gets its width and height both set to
`1.2 * (1 + sin(pulse_phase) * 0.2)` — the factor is the literal constant
1.2, not the lifeline's creation size 1.5 (see the counterexample) — and
its pulse phase advances by the fixed constant 0.05 per tick; neither the
difficulty level nor `dt` occurs in either formula (`life_tick` receives
neither). -/
theorem c9_lifeline_pulse (env : Env) (s : GameState) (i : ℕ) (lf : Lifeline)
    (d : LifeData) (rem : List ℕ)
    (hl : s.lifelines.get? i = some lf)
    (hd : s.lifeline_data.get? i = some d)
    (hno : ¬ |s.player_x - (lf.x - s.speed)| < (13/10)) :
    (life_tick env (s, rem, false) i).1.lifelines.get? i =
        some { x := lf.x - s.speed
               y := d.base_y +
                 env.sin (d.animation_offset + d.animation_speed * (2/100)) * (4/10)
               width := (12/10) * (1 + env.sin (d.pulse_offset + (5/100)) * (2/10))
               height := (12/10) * (1 + env.sin (d.pulse_offset + (5/100)) * (2/10)) } ∧
      (life_tick env (s, rem, false) i).1.lifeline_data.get? i =
        some { base_y := d.base_y
               animation_offset := d.animation_offset + d.animation_speed * (2/100)
               animation_speed := d.animation_speed
               pulse_offset := d.pulse_offset + (5/100) } := by
  have hlen : i < s.lifelines.length := (List.get?_eq_some.mp hl).1
  have hdlen : i < s.lifeline_data.length := (List.get?_eq_some.mp hd).1
  unfold life_tick
  dsimp only
  rw [if_neg Bool.false_ne_true]
  simp only [hl, hd]
  rw [if_neg (fun hcon => hno hcon.1)]
  split <;>
    constructor <;>
    simp [List.get?_eq_getElem?, List.getElem?_set_self, hlen, hdlen]

/-- Witness for C9 on the concrete state holding one freshly created
lifeline (sine oracle identically 0). -/
theorem c9_lifeline_pulse_witness :
    (life_tick envW (s9_state, [], false) 0).1.lifelines.get? 0 =
        some { x := (25 : ℚ) - s9_state.speed
               y := (-5 : ℚ) +
                 envW.sin (0 + (15/10) * (2/100)) * (4/10)
               width := (12/10) * (1 + envW.sin (0 + (5/100)) * (2/10))
               height := (12/10) * (1 + envW.sin (0 + (5/100)) * (2/10)) } ∧
      (life_tick envW (s9_state, [], false) 0).1.lifeline_data.get? 0 =
        some { base_y := (-5 : ℚ)
               animation_offset := (0 : ℚ) + (15/10) * (2/100)
               animation_speed := (15/10 : ℚ)
               pulse_offset := (0 : ℚ) + (5/100) } :=
  c9_lifeline_pulse envW s9_state 0 ⟨25, -5, (15/10), (15/10)⟩ ⟨-5, 0, (15/10), 0⟩ []
    rfl rfl
    (by
      rw [not_lt]
      refine le_trans ?_ (neg_le_abs _)
      norm_num [s9_state, initial_state, base_speed])

/-- Counterexample to C9 as stated: a lifeline is created with size 1.5,
yet after one running tick its width is 1.2 (the pulse formula uses the
literal 1.2, not the creation size): with the sine oracle identically 0 the
claimed value `base_size * (1 + sin(pulse_phase) * 0.2)` is 1.5 ≠ 1.2. -/
theorem c9_counterexample :
    (create_lifeline envW (initial_state 0)).1.width = (15/10) ∧
    (update envW 1 s9_state).lifelines.map Lifeline.width = [(12/10)] ∧
    ((12/10) : ℚ) ≠ (15/10) * (1 + envW.sin
      ((create_lifeline envW (initial_state 0)).2.pulse_offset + (5/100)) * (2/10)) := by
  refine ⟨rfl, ?_, by norm_num [envW, create_lifeline, create_lifeline_y,
    lifeline_safe_y, initial_state]⟩
  norm_num [update, invuln_step, physics_step, rotation_step, obs_phase, life_phase,
    obs_tick, life_tick, collect_lifeline, remove_indexed, remove_step,
    spawn_obstacles, spawn_lifelines, get_spawn_timing, get_lifeline_spawn_timing,
    get_difficulty_multiplier, initial_state, s9_state, envW, max_difficulty_level,
    base_spawn_min, base_spawn_max, base_lifeline_spawn_min, base_lifeline_spawn_max,
    gravity, base_speed, create_lifeline, create_lifeline_y, lifeline_safe_y,
    get_obstacle_pattern, patternChoices, create_obstacle_pattern, create_pill_obstacle,
    max_def, min_def, abs_eq_max_neg,
    List.range_succ, List.range_zero, List.foldl_nil, List.foldl_cons]

/-! ### Obstacle reaping and scoring (claim C4) -/

theorem invuln_step_active (dt : ℚ) (s : GameState) (h : s.invulnerable = true)
    (ht : ¬ s.invulnerable_timer - dt ≤ 0) :
    invuln_step dt s = { s with invulnerable_timer := s.invulnerable_timer - dt } := by
  unfold invuln_step
  dsimp only
  rw [if_pos h, if_neg ht]

theorem invuln_step_inactive (dt : ℚ) (s : GameState) (h : s.invulnerable = false) :
    invuln_step dt s = s := by
  unfold invuln_step
  dsimp only
  rw [h]
  rfl

theorem get_spawn_timing_congr (s t : GameState)
    (h : s.difficulty_level = t.difficulty_level) :
    get_spawn_timing s = get_spawn_timing t := by
  unfold get_spawn_timing get_difficulty_multiplier
  rw [h]

theorem spawn_obstacles_noop (env : Env) (t : GameState)
    (h : ¬ env.now - t.last_spawn_time >
        env.uniform 0 (get_spawn_timing t).1 (get_spawn_timing t).2) :
    spawn_obstacles env t = t := by
  unfold spawn_obstacles
  dsimp only
  rw [if_neg h]

theorem life_phase_empty (env : Env) (s : GameState) (h : s.lifelines = []) :
    life_phase env s = s := by
  unfold life_phase remove_indexed
  rw [h]
  rfl

theorem remove_fold_len {α β : Type} :
    ∀ (d : List ℕ) (ol : List α) (dl : List β),
      d.Pairwise (· > ·) → (∀ x ∈ d, x < ol.length) →
      (d.foldl remove_step (ol, dl)).1.length + d.length = ol.length := by
  intro d
  induction d with
  | nil => intro ol dl _ _; simp
  | cons m t ih =>
      intro ol dl hp hb
      have hm : m < ol.length := hb m (List.mem_cons_self m t)
      rw [List.foldl_cons]
      have hstep : remove_step (ol, dl) m =
          (ol.eraseIdx m, if m < dl.length then dl.eraseIdx m else dl) := by
        unfold remove_step
        dsimp only
        rw [if_pos hm]
        split <;> rfl
      rw [hstep]
      have hlen : (ol.eraseIdx m).length = ol.length - 1 := by
        rw [List.length_eraseIdx, if_pos hm]
      obtain ⟨h1, h2⟩ := List.pairwise_cons.mp hp
      have hb' : ∀ x ∈ t, x < (ol.eraseIdx m).length := by
        intro x hx
        have hxm : m > x := h1 x hx
        rw [hlen]
        omega
      have := ih (ol.eraseIdx m) (if m < dl.length then dl.eraseIdx m else dl) h2 hb'
      rw [hlen] at this
      simp only [List.length_cons]
      omega

theorem countP_range_getD {α : Type} [Inhabited α] (l : List α) (p : α → Bool) :
    ((List.range l.length).filter (fun j => p (l.getD j default))).length =
      l.countP p := by
  induction l using List.reverseRecOn with
  | nil => rfl
  | append_singleton l a ih =>
      rw [List.length_append, List.length_singleton, List.range_succ,
        List.filter_append, List.length_append, List.countP_append]
      have hcongr : (List.range l.length).filter
            (fun j => p ((l ++ [a]).getD j default)) =
          (List.range l.length).filter (fun j => p (l.getD j default)) := by
        apply List.filter_congr
        intro j hj
        rw [List.getD_append _ _ _ _ (List.mem_range.mp hj)]
      rw [hcongr, ih]
      have hlast : (l ++ [a]).getD l.length default = a := by
        rw [List.getD_append_right _ _ _ _ (le_refl _)]
        simp
      rw [List.filter_singleton, hlast]
      cases hpa : p a <;> simp [List.countP_cons, List.countP_nil, hpa]

theorem obs_tick_step (env : Env) (s3 si : GameState) (rem : List ℕ) (i : ℕ)
    (hi : i < s3.obstacles.length)
    (hstable : si.obstacles.get? i = s3.obstacles.get? i)
    (hspeed : si.speed = s3.speed)
    (hdiff : si.difficulty_level = 15)
    (hinvul : si.invulnerable = true)
    (hge : 140 ≤ si.score) :
    ∃ si' : GameState,
      obs_tick env (si, rem, false) i =
        (si', if despawnedP s3.speed (s3.obstacles.getD i default) then rem ++ [i]
              else rem, false) ∧
      si'.score = si.score +
        (if despawnedP s3.speed (s3.obstacles.getD i default) then 1 else 0) ∧
      si'.obstacles.length = si.obstacles.length ∧
      (∀ j, j ≠ i → si'.obstacles.get? j = si.obstacles.get? j) ∧
      si'.speed = si.speed ∧
      si'.difficulty_level = si.difficulty_level ∧
      si'.invulnerable = si.invulnerable ∧
      si'.player_x = si.player_x ∧
      si'.player_y = si.player_y ∧
      si'.last_spawn_time = si.last_spawn_time ∧
      si'.last_lifeline_spawn_time = si.last_lifeline_spawn_time ∧
      si'.lifelines = si.lifelines ∧
      si'.lifeline_data = si.lifeline_data ∧
      si'.lives = si.lives := by
  rcases ho : s3.obstacles.get? i with _ | o
  · exact absurd (List.get?_eq_none.mp ho) (by omega)
  have hgetD : s3.obstacles.getD i default = o := by
    obtain ⟨h, he⟩ := List.get?_eq_some.mp ho
    rw [List.getD_eq_getElem _ _ hi]
    exact he
  have hsio : si.obstacles.get? i = some o := hstable.trans ho
  unfold obs_tick
  dsimp only
  rw [if_neg Bool.false_ne_true, hsio]
  rcases hd : si.obstacle_data.get? i with _ | d <;> dsimp only <;>
    rw [if_neg (fun hc => absurd hc.2.2 (by simp [hinvul]))] <;>
    by_cases hdp : o.x - si.speed < -25
  case pos =>
    rw [if_pos hdp]
    have hdp2 : despawnedP s3.speed (s3.obstacles.getD i default) = true := by
      rw [hgetD]
      simp only [despawnedP, decide_eq_true_eq]
      rw [← hspeed]
      exact hdp
    rw [hdp2]
    rw [update_difficulty_noop _ (by simpa using by omega) (by simpa using hdiff)]
    split <;>
      exact ⟨_, rfl, rfl, by simp [List.length_set],
        fun j hj => by simp [List.get?_eq_getElem?, List.getElem?_set_ne (Ne.symm hj)],
        rfl, rfl, rfl, rfl, rfl, rfl, rfl, rfl, rfl, rfl⟩
  case neg =>
    rw [if_neg hdp]
    have hdp2 : despawnedP s3.speed (s3.obstacles.getD i default) = false := by
      rw [hgetD]
      simp only [despawnedP, decide_eq_false_iff_not]
      rw [← hspeed]
      exact hdp
    rw [hdp2]
    exact ⟨_, rfl, by simp, by simp [List.length_set],
      fun j hj => by simp [List.get?_eq_getElem?, List.getElem?_set_ne (Ne.symm hj)],
      rfl, rfl, rfl, rfl, rfl, rfl, rfl, rfl, rfl, rfl⟩
  case pos =>
    rw [if_pos hdp]
    have hdp2 : despawnedP s3.speed (s3.obstacles.getD i default) = true := by
      rw [hgetD]
      simp only [despawnedP, decide_eq_true_eq]
      rw [← hspeed]
      exact hdp
    rw [hdp2]
    rw [update_difficulty_noop _ (by simpa using by omega) (by simpa using hdiff)]
    split <;>
      exact ⟨_, rfl, rfl, by simp [List.length_set],
        fun j hj => by simp [List.get?_eq_getElem?, List.getElem?_set_ne (Ne.symm hj)],
        rfl, rfl, rfl, rfl, rfl, rfl, rfl, rfl, rfl, rfl⟩
  case neg =>
    rw [if_neg hdp]
    have hdp2 : despawnedP s3.speed (s3.obstacles.getD i default) = false := by
      rw [hgetD]
      simp only [despawnedP, decide_eq_false_iff_not]
      rw [← hspeed]
      exact hdp
    rw [hdp2]
    exact ⟨_, rfl, by simp, by simp [List.length_set],
      fun j hj => by simp [List.get?_eq_getElem?, List.getElem?_set_ne (Ne.symm hj)],
      rfl, rfl, rfl, rfl, rfl, rfl, rfl, rfl, rfl, rfl⟩

theorem obs_loop_inv (env : Env) (s3 : GameState)
    (hinvul : s3.invulnerable = true) (hscore : 140 ≤ s3.score)
    (hlevel : s3.difficulty_level = 15) :
    ∀ i, i ≤ s3.obstacles.length →
    ∃ si : GameState,
      (List.range i).foldl (obs_tick env) (s3, [], false) =
        (si, (List.range i).filter
          (fun j => despawnedP s3.speed (s3.obstacles.getD j default)), false) ∧
      si.score = s3.score + ((List.range i).filter
          (fun j => despawnedP s3.speed (s3.obstacles.getD j default))).length ∧
      si.obstacles.length = s3.obstacles.length ∧
      (∀ j, i ≤ j → si.obstacles.get? j = s3.obstacles.get? j) ∧
      si.speed = s3.speed ∧
      si.difficulty_level = 15 ∧
      si.invulnerable = true ∧
      si.player_x = s3.player_x ∧
      si.player_y = s3.player_y ∧
      si.last_spawn_time = s3.last_spawn_time ∧
      si.last_lifeline_spawn_time = s3.last_lifeline_spawn_time ∧
      si.lifelines = s3.lifelines ∧
      si.lifeline_data = s3.lifeline_data ∧
      si.lives = s3.lives := by
  intro i
  induction i with
  | zero =>
      intro _
      exact ⟨s3, rfl, by simp, rfl, fun j _ => rfl, rfl, hlevel, hinvul,
        rfl, rfl, rfl, rfl, rfl, rfl, rfl⟩
  | succ i ih =>
      intro hi1
      have hi : i < s3.obstacles.length := hi1
      obtain ⟨si, heq, hsc, hlen, hstab, hsp, hdf, hiv, hpx, hpy, hls, hll,
        hlfs, hlfd, hlv⟩ := ih (Nat.le_of_lt hi)
      rw [List.range_succ, List.foldl_append, List.foldl_cons, List.foldl_nil, heq]
      obtain ⟨si', hstep, hsc', hlen', hstab', hsp', hdf', hiv', hpx', hpy',
        hls', hll', hlfs', hlfd', hlv'⟩ :=
        obs_tick_step env s3 si
          ((List.range i).filter
            (fun j => despawnedP s3.speed (s3.obstacles.getD j default))) i hi
          (hstab i (le_refl i)) hsp hdf hiv (by omega)
      rw [hstep]
      have hfilter : (List.range i ++ [i]).filter
            (fun j => despawnedP s3.speed (s3.obstacles.getD j default)) =
          (List.range i).filter
            (fun j => despawnedP s3.speed (s3.obstacles.getD j default)) ++
            (if despawnedP s3.speed (s3.obstacles.getD i default) then [i] else []) := by
        rw [List.filter_append, List.filter_singleton]
        cases hp : despawnedP s3.speed (s3.obstacles.getD i default) <;> simp [hp]
      refine ⟨si', ?_, ?_, hlen'.trans hlen, ?_, hsp'.trans hsp, hdf'.trans hdf,
        hiv'.trans hiv, hpx'.trans hpx, hpy'.trans hpy, hls'.trans hls,
        hll'.trans hll, hlfs'.trans hlfs, hlfd'.trans hlfd, hlv'.trans hlv⟩
      · rw [hfilter]
        cases hp : despawnedP s3.speed (s3.obstacles.getD i default) <;> simp [hp]
      · rw [hfilter, hsc', hsc]
        cases hp : despawnedP s3.speed (s3.obstacles.getD i default) <;> (simp [hp]; try omega)
      · intro j hj
        exact (hstab' j (by omega)).trans (hstab j (by omega))

theorem obs_phase_c4 (env : Env) (s3 : GameState)
    (hinvul : s3.invulnerable = true) (hscore : 140 ≤ s3.score)
    (hlevel : s3.difficulty_level = 15) :
    (obs_phase env s3).score = s3.score + s3.obstacles.countP (despawnedP s3.speed) ∧
    (obs_phase env s3).obstacles.length + s3.obstacles.countP (despawnedP s3.speed) =
      s3.obstacles.length ∧
    (obs_phase env s3).speed = s3.speed ∧
    (obs_phase env s3).difficulty_level = 15 ∧
    (obs_phase env s3).last_spawn_time = s3.last_spawn_time ∧
    (obs_phase env s3).last_lifeline_spawn_time = s3.last_lifeline_spawn_time ∧
    (obs_phase env s3).lifelines = s3.lifelines ∧
    (obs_phase env s3).lifeline_data = s3.lifeline_data ∧
    (obs_phase env s3).lives = s3.lives := by
  obtain ⟨si, heq, hsc, hlen, -, hsp, hdf, -, -, -, hls, hll, hlfs, hlfd, hlv⟩ :=
    obs_loop_inv env s3 hinvul hscore hlevel s3.obstacles.length (le_refl _)
  have hcnt : ((List.range s3.obstacles.length).filter
      (fun j => despawnedP s3.speed (s3.obstacles.getD j default))).length =
      s3.obstacles.countP (despawnedP s3.speed) := countP_range_getD _ _
  have hsorted : ((List.range s3.obstacles.length).filter
      (fun j => despawnedP s3.speed (s3.obstacles.getD j default))).reverse.Pairwise
        (· > ·) := by
    rw [List.pairwise_reverse]
    exact List.Pairwise.filter _ (List.pairwise_lt_range _)
  have hbound : ∀ x ∈ ((List.range s3.obstacles.length).filter
      (fun j => despawnedP s3.speed (s3.obstacles.getD j default))).reverse,
      x < si.obstacles.length := by
    intro x hx
    rw [List.mem_reverse] at hx
    have hxr := (List.mem_filter.mp hx).1
    rw [hlen]
    exact List.mem_range.mp hxr
  have hrem : (remove_indexed
        ((List.range s3.obstacles.length).filter
          (fun j => despawnedP s3.speed (s3.obstacles.getD j default)))
        si.obstacles si.obstacle_data).1.length +
      ((List.range s3.obstacles.length).filter
        (fun j => despawnedP s3.speed (s3.obstacles.getD j default))).reverse.length =
      si.obstacles.length :=
    remove_fold_len _ si.obstacles si.obstacle_data hsorted hbound
  unfold obs_phase
  dsimp only
  rw [heq]
  dsimp only
  rcases hre : remove_indexed
      ((List.range s3.obstacles.length).filter
        (fun j => despawnedP s3.speed (s3.obstacles.getD j default)))
      si.obstacles si.obstacle_data with ⟨ol, dl⟩
  simp only [hre]
  rw [hre] at hrem
  rw [List.length_reverse] at hrem
  refine ⟨by rw [hcnt] at hsc; exact hsc, ?_, hsp, hdf, hls, hll, hlfs, hlfd, hlv⟩
  dsimp only at hrem ⊢
  rw [hcnt] at hrem
  rw [hlen] at hrem
  exact hrem

theorem life_tick_keeps (env : Env) (acc : GameState × List ℕ × Bool) (i : ℕ) :
    (life_tick env acc i).1.score = acc.1.score ∧
    (life_tick env acc i).1.obstacles = acc.1.obstacles ∧
    (life_tick env acc i).1.obstacle_data = acc.1.obstacle_data ∧
    (life_tick env acc i).1.difficulty_level = acc.1.difficulty_level ∧
    (life_tick env acc i).1.speed = acc.1.speed ∧
    (life_tick env acc i).1.last_spawn_time = acc.1.last_spawn_time := by
  obtain ⟨s, rem, broke⟩ := acc
  unfold life_tick
  dsimp only
  repeat' split
  all_goals simp_all [collect_lifeline_score, collect_lifeline_obstacles,
    collect_lifeline_obstacle_data, collect_lifeline_difficulty,
    collect_lifeline_speed, collect_lifeline_last_spawn]

theorem life_phase_keeps (env : Env) (s : GameState) :
    (life_phase env s).score = s.score ∧
    (life_phase env s).obstacles = s.obstacles ∧
    (life_phase env s).obstacle_data = s.obstacle_data ∧
    (life_phase env s).difficulty_level = s.difficulty_level ∧
    (life_phase env s).speed = s.speed ∧
    (life_phase env s).last_spawn_time = s.last_spawn_time := by
  unfold life_phase
  dsimp only
  have hr := foldl_rec (life_tick env)
    (fun acc => acc.1.score = s.score ∧ acc.1.obstacles = s.obstacles ∧
      acc.1.obstacle_data = s.obstacle_data ∧
      acc.1.difficulty_level = s.difficulty_level ∧ acc.1.speed = s.speed ∧
      acc.1.last_spawn_time = s.last_spawn_time)
    (fun b a hb => by
      obtain ⟨k1, k2, k3, k4, k5, k6⟩ := life_tick_keeps env b a
      exact ⟨k1.trans hb.1, k2.trans hb.2.1, k3.trans hb.2.2.1,
        k4.trans hb.2.2.2.1, k5.trans hb.2.2.2.2.1, k6.trans hb.2.2.2.2.2⟩)
    (List.range s.lifelines.length) (s, [], false) ⟨rfl, rfl, rfl, rfl, rfl, rfl⟩
  exact hr

theorem update_reaps_and_scores (env : Env) (dt : ℚ) (s : GameState)
    (h1 : s.game_running = true) (h2 : s.game_paused = false)
    (h3 : s.invulnerable = true) (h4 : ¬ s.invulnerable_timer - dt ≤ 0)
    (h5 : 140 ≤ s.score) (h6 : s.difficulty_level = 15)
    (h7 : ¬ env.now - s.last_spawn_time >
        env.uniform 0 (get_spawn_timing s).1 (get_spawn_timing s).2) :
    (update env dt s).score = s.score + s.obstacles.countP (despawnedP s.speed) ∧
      (update env dt s).obstacles.length + s.obstacles.countP (despawnedP s.speed) =
        s.obstacles.length := by
  unfold update
  rw [if_neg (by simp [h1, h2])]
  dsimp only
  rw [invuln_step_active dt s h3 h4]
  set S1 : GameState := { s with invulnerable_timer := s.invulnerable_timer - dt }
    with hS1
  obtain ⟨pobs, pdat, plif, plifd, psc, plv, pspd, pdif, ppx, pinv, pit, plsp,
    pllsp, pgr, pgp⟩ := physics_step_only_player S1
  set s3 : GameState := rotation_step (physics_step S1) with hs3
  have e_obs : s3.obstacles = s.obstacles := pobs
  have e_spd : s3.speed = s.speed := pspd
  have e_sc : s3.score = s.score := psc
  have e_dif : s3.difficulty_level = 15 := by rw [hs3]; show (physics_step S1).difficulty_level = 15; rw [pdif]; exact h6
  have e_inv : s3.invulnerable = true := by rw [hs3]; show (physics_step S1).invulnerable = true; rw [pinv]; exact h3
  have e_lsp : s3.last_spawn_time = s.last_spawn_time := plsp
  have e_ge : 140 ≤ s3.score := by rw [e_sc]; exact h5
  obtain ⟨o_sc, o_len, o_spd, o_dif, o_lsp, -, -, -, -⟩ :=
    obs_phase_c4 env s3 e_inv e_ge e_dif
  obtain ⟨l_sc, l_obs, -, l_dif, l_spd, l_lsp⟩ :=
    life_phase_keeps env (obs_phase env s3)
  have hnoop : spawn_obstacles env (life_phase env (obs_phase env s3)) =
      life_phase env (obs_phase env s3) := by
    apply spawn_obstacles_noop
    rw [l_lsp, o_lsp, e_lsp]
    rw [get_spawn_timing_congr (life_phase env (obs_phase env s3)) s
      (by rw [l_dif, o_dif, h6])]
    exact h7
  rw [hnoop]
  obtain ⟨sl_obs, -, sl_sc, -⟩ :=
    spawn_lifelines_only_lifelines env (life_phase env (obs_phase env s3))
  constructor
  · rw [sl_sc, l_sc, o_sc, e_sc, e_obs, e_spd]
  · rw [sl_obs, l_obs]
    rw [e_obs, e_spd] at o_len
    exact o_len

theorem remove_indexed_nil {α β : Type} (ol : List α) (dl : List β) :
    remove_indexed ([] : List ℕ) ol dl = (ol, dl) := rfl

theorem update_collision_keeps_obstacle (env : Env) (dt : ℚ) (s : GameState)
    (o : Obstacle) (d : ObsData)
    (h1 : s.game_running = true) (h2 : s.game_paused = false)
    (h3 : s.invulnerable = false)
    (hobs : s.obstacles = [o]) (hdat : s.obstacle_data = [d])
    (hlif : s.lifelines = [])
    (hcx : |s.player_x - (o.x - s.speed)| < (12/10))
    (hcy : |(physics_step s).player_y - (d.base_y +
        env.sin (d.animation_offset + d.animation_speed * (2/100)) * (3/10))| < (12/10))
    (h7 : ¬ env.now - s.last_spawn_time >
        env.uniform 0 (get_spawn_timing s).1 (get_spawn_timing s).2) :
    (update env dt s).obstacles.length = 1 ∧
      (update env dt s).lives = s.lives - 1 := by
  unfold update
  rw [if_neg (by simp [h1, h2])]
  dsimp only
  rw [invuln_step_inactive dt s h3]
  obtain ⟨pobs, pdat, plif, plifd, psc, plv, pspd, pdif, ppx, pinv, pit, plsp,
    pllsp, pgr, pgp⟩ := physics_step_only_player s
  set s3 : GameState := rotation_step (physics_step s) with hs3
  have e_obs : s3.obstacles = [o] := pobs.trans hobs
  have e_dat : s3.obstacle_data = [d] := pdat.trans hdat
  have e_px : s3.player_x = s.player_x := ppx
  have e_spd : s3.speed = s.speed := pspd
  have e_inv : s3.invulnerable = false := pinv.trans h3
  have e_lif : s3.lifelines = [] := plif.trans hlif
  have e_lsp : s3.last_spawn_time = s.last_spawn_time := plsp
  have e_dif : s3.difficulty_level = s.difficulty_level := pdif
  have e_lv : s3.lives = s.lives := plv
  have hop : (obs_phase env s3).obstacles.length = 1 ∧
      (obs_phase env s3).lives = s3.lives - 1 ∧
      (obs_phase env s3).lifelines = [] ∧
      (obs_phase env s3).last_spawn_time = s3.last_spawn_time ∧
      (obs_phase env s3).difficulty_level = s3.difficulty_level := by
    unfold obs_phase
    dsimp only
    rw [e_obs, show List.range ([o] : List Obstacle).length = [0] from rfl,
      List.foldl_cons, List.foldl_nil]
    unfold obs_tick
    dsimp only
    rw [if_neg Bool.false_ne_true]
    rw [show s3.obstacles.get? 0 = some o from by rw [e_obs]; rfl]
    dsimp only
    rw [show s3.obstacle_data.get? 0 = some d from by rw [e_dat]; rfl]
    dsimp only
    rw [if_pos ?hc]
    case hc =>
      refine ⟨?_, ?_, ?_⟩
      · show |s3.player_x - (o.x - s3.speed)| < (12/10)
        rw [e_px, e_spd]
        exact hcx
      · exact hcy
      · exact e_inv
    rw [remove_indexed_nil]
    refine ⟨?_, ?_, ?_, ?_, ?_⟩
    · simp only [lose_life_obstacles]
      show (s3.obstacles.set 0 _).length = 1
      rw [List.length_set, e_obs]
      rfl
    · simp only [lose_life_lives]
    · simp only [lose_life_lifelines]
      exact e_lif
    · simp only [lose_life_last_spawn]
    · simp only [lose_life_difficulty]
  rw [life_phase_empty env _ hop.2.2.1]
  rw [spawn_obstacles_noop env _ ?hsp]
  case hsp =>
    rw [hop.2.2.2.1, e_lsp]
    rw [get_spawn_timing_congr _ s (hop.2.2.2.2.trans e_dif)]
    exact h7
  obtain ⟨sl_obs, -, -, sl_lv, -⟩ := spawn_lifelines_only_lifelines env _
  refine ⟨?_, ?_⟩
  · rw [sl_obs]
    exact hop.1
  · rw [sl_lv, hop.2.1, e_lv]

/-- C4 as amended: obstacles leave the pool only through the despawn
branch — on a tick where no collision can fire (player invulnerable
through the tick), the score rises by exactly the number of obstacles
whose moved x coordinate crossed -25 and the pool shrinks by exactly that
number (stated at the difficulty cap, where the cached speed is constant
across the pass) — while an obstacle that collides with a non-invulnerable
player is NOT destroyed: the player loses a life and the obstacle stays in
the pool (see the counterexample). -/
theorem c4_obstacle_removal :
    (∀ (env : Env) (dt : ℚ) (s : GameState),
      s.game_running = true → s.game_paused = false →
      s.invulnerable = true → ¬ s.invulnerable_timer - dt ≤ 0 →
      140 ≤ s.score → s.difficulty_level = 15 →
      (¬ env.now - s.last_spawn_time >
        env.uniform 0 (get_spawn_timing s).1 (get_spawn_timing s).2) →
      (update env dt s).score = s.score + s.obstacles.countP (despawnedP s.speed) ∧
        (update env dt s).obstacles.length + s.obstacles.countP (despawnedP s.speed) =
          s.obstacles.length) ∧
    (∀ (env : Env) (dt : ℚ) (s : GameState) (o : Obstacle) (d : ObsData),
      s.game_running = true → s.game_paused = false → s.invulnerable = false →
      s.obstacles = [o] → s.obstacle_data = [d] → s.lifelines = [] →
      |s.player_x - (o.x - s.speed)| < (12/10) →
      |(physics_step s).player_y - (d.base_y +
        env.sin (d.animation_offset + d.animation_speed * (2/100)) * (3/10))| < (12/10) →
      (¬ env.now - s.last_spawn_time >
        env.uniform 0 (get_spawn_timing s).1 (get_spawn_timing s).2) →
      (update env dt s).obstacles.length = 1 ∧
        (update env dt s).lives = s.lives - 1) :=
  ⟨update_reaps_and_scores, update_collision_keeps_obstacle⟩

/-- Witness for C4: a concrete despawn tick (one of two obstacles crosses
-25, score rises by one) and a concrete collision tick (life lost, the
obstacle still in the pool). -/
theorem c4_obstacle_removal_witness :
    ((update envW 1 c4_state).score = c4_state.score +
        c4_state.obstacles.countP (despawnedP c4_state.speed) ∧
      (update envW 1 c4_state).obstacles.length +
          c4_state.obstacles.countP (despawnedP c4_state.speed) =
        c4_state.obstacles.length) ∧
    ((update envW 1 c4b_state).obstacles.length = 1 ∧
      (update envW 1 c4b_state).lives = c4b_state.lives - 1) :=
  ⟨c4_obstacle_removal.1 envW 1 c4_state rfl rfl rfl (by norm_num [c4_state, initial_state])
      (by norm_num [c4_state, initial_state]) rfl
      (by norm_num [envW, c4_state, initial_state, get_spawn_timing,
        get_difficulty_multiplier, max_difficulty_level, base_spawn_min, base_spawn_max,
        max_def, min_def]),
   c4_obstacle_removal.2 envW 1 c4b_state
      ⟨-(45/10), -(55/10), (15/10), (15/10)⟩ ⟨-(55/10), 0, (15/10)⟩
      rfl rfl rfl rfl rfl rfl
      (by norm_num [c4b_state, initial_state, base_speed, abs_eq_max_neg, max_def])
      (by norm_num [physics_step, c4b_state, initial_state, gravity, base_speed, envW,
        abs_eq_max_neg, max_def])
      (by norm_num [envW, c4b_state, initial_state, get_spawn_timing,
        get_difficulty_multiplier, max_difficulty_level, base_spawn_min, base_spawn_max,
        max_def, min_def])⟩

/-- Counterexample to C4 as stated: the obstacle colliding with the
non-invulnerable player is not destroyed while resolving the collision —
the tick costs a life (5 becomes 4) yet the obstacle count stays 1. -/
theorem c4_counterexample :
    c4b_state.invulnerable = false ∧
    c4b_state.obstacles.length = 1 ∧
    c4b_state.lives = 5 ∧
    (update envW 1 c4b_state).lives = 4 ∧
    (update envW 1 c4b_state).obstacles.length = 1 := by
  have h := update_collision_keeps_obstacle envW 1 c4b_state
      ⟨-(45/10), -(55/10), (15/10), (15/10)⟩ ⟨-(55/10), 0, (15/10)⟩
      rfl rfl rfl rfl rfl rfl
      (by norm_num [c4b_state, initial_state, base_speed, abs_eq_max_neg, max_def])
      (by norm_num [physics_step, c4b_state, initial_state, gravity, base_speed, envW,
        abs_eq_max_neg, max_def])
      (by norm_num [envW, c4b_state, initial_state, get_spawn_timing,
        get_difficulty_multiplier, max_difficulty_level, base_spawn_min, base_spawn_max,
        max_def, min_def])
  refine ⟨rfl, rfl, rfl, ?_, h.1⟩
  rw [h.2]
  rfl

end JuiceWRLD
